import Mathlib

/-!
Verification development for the simple-mbtiles-server repository.

The embedding below translates the tile-serving pipeline of
`src/simple_mbtiles_server/core.py` (class `MBTilesDB`) and
`src/simple_mbtiles_server/server.py` (`flip_y`, the `/tiles/{z}/{x}/{y}`
and `/metadata` handlers) into Lean.

Representation choices:
- a byte string (`bytes`) is a `List Nat`;
- the `tiles` SQLite table is a `List TileRow`, in storage order;
  `cursor.fetchone()` on an exact-key `SELECT` is `List.find?`;
- the `metadata` table is a `List (String × String)` of (name, value)
  rows, and a Python `dict` is a key-unique `List (String × String)`
  maintained with insert-or-overwrite semantics;
- `gzip.decompress` is an opaque parameter
  `gunzip : List Nat → Option (List Nat)` (`none` models a raised
  decompression error);
- Python `int(...)` on a string, also used by the framework to coerce
  the `z` and `x` path parameters, is modelled by `pyIntList?` over
  ASCII text (whitespace stripping, an optional sign, digits with
  underscores between them).
-/

/-- One row of the `tiles` table: key (zoom_level, tile_column, tile_row)
plus the blob `tile_data`.  Stored rows use the archive's native (TMS)
orientation. -/
structure TileRow where
  zoom_level : Nat
  tile_column : Int
  tile_row : Int
  tile_data : List Nat
deriving DecidableEq

/-- The SQL `WHERE zoom_level = ? AND tile_column = ? AND tile_row = ?`
predicate of `core.py` line 33, for a given candidate row value. -/
def keyMatches (t : TileRow) (z : Nat) (x row : Int) : Bool :=
  t.zoom_level == z && t.tile_column == x && t.tile_row == row

/-- MBTilesDB.get_tile from `core.py` lines 29-37: the query binds the row
parameter to `2**z - 1 - y` (the source comment calls it a "TMS to XYZ
conversion"), fetches the first matching row, and returns its data, or
`None` when no row matches. -/
def MBTilesDB.get_tile (tiles : List TileRow) (z : Nat) (x y : Int) : Option (List Nat) :=
  (tiles.find? (fun t => keyMatches t z x ((2 : Int) ^ z - 1 - y))).map TileRow.tile_data

/-- Exact-key lookup, written from the spec's words for §4.1 getTile:
"Looks up the exact (zoom, column, row) key, interpreting `row` in the
archive's native (TMS) convention", returning absence as `none`.  Kept
separate from `MBTilesDB.get_tile` so the two can be compared. -/
def lookupExact (tiles : List TileRow) (z : Nat) (x row : Int) : Option (List Nat) :=
  (tiles.find? (fun t => keyMatches t z x row)).map TileRow.tile_data

/-- Insert-or-overwrite on a key-unique association list; the model of
binding one key in a Python dict. -/
def dictInsert (d : List (String × String)) (k v : String) : List (String × String) :=
  match d with
  | [] => [(k, v)]
  | kv :: t => if kv.1 == k then (k, v) :: t else kv :: dictInsert t k v

/-- Lookup in the dict model (`d[k]` as an option). -/
def dictFind? (d : List (String × String)) (k : String) : Option String :=
  (d.find? (fun kv => kv.1 == k)).map Prod.snd

/-- Python `d.get(k, dflt)`. -/
def dictGetD (d : List (String × String)) (k dflt : String) : String :=
  (dictFind? d k).getD dflt

/-- MBTilesDB.get_metadata from `core.py` lines 23-27: the dict
comprehension `{name: value for name, value in cursor.fetchall()}` over
all rows of the metadata table. -/
def MBTilesDB.get_metadata (rows : List (String × String)) : List (String × String) :=
  rows.foldl (fun d nv => dictInsert d nv.1 nv.2) []

/-- Python `str.split(sep)` for a one-character separator: splits at every
occurrence, keeping empty pieces; `''.split(sep) == ['']`. -/
def pySplit (sep : Char) : List Char → List (List Char)
  | [] => [[]]
  | c :: t =>
    if c == sep then [] :: pySplit sep t
    else
      match pySplit sep t with
      | h :: r => (c :: h) :: r
      | [] => [[c]]

/-- Python `needle in hay` substring containment on character lists. -/
def containsSub (needle : List Char) : List Char → Bool
  | [] => needle.isPrefixOf []
  | c :: t => needle.isPrefixOf (c :: t) || containsSub needle t

/-- MBTilesDB.is_compressed from `core.py` lines 39-44: the archive-wide
heuristic `not any("-pC" in opt for opt in
metadata.get('generator_options', '').split(';'))`. -/
def MBTilesDB.is_compressed (metaRows : List (String × String)) : Bool :=
  !((pySplit ';' (dictGetD (MBTilesDB.get_metadata metaRows) "generator_options" "").toList).any
      (fun opt => containsSub "-pC".toList opt))

/-- flip_y from `server.py` lines 15-17: `(1 << zoom) - 1 - y`, the
TMS/XYZ row conversion, over unbounded integers as in Python. -/
def flip_y (zoom : Nat) (y : Int) : Int :=
  ((1 <<< zoom : Nat) : Int) - 1 - y

/-- The gzip sniff `tile_data.startswith(b'\x1f\x8b')` of `server.py`
line 54. -/
def hasGzipMagic (d : List Nat) : Bool :=
  match d with
  | b0 :: b1 :: _ => b0 == 0x1f && b1 == 0x8b
  | _ => false

/-- Outcome of the tile-resolution core: a 200 body, a 404, or the 500
raised when decompression fails. -/
inductive TileOutcome where
  | ok (body : List Nat)
  | notFound
  | decodeError
deriving DecidableEq

/-- The decode step of `server.py` lines 52-59: if the blob carries the
gzip magic prefix it is decompressed in full (a decompression error
becomes `decodeError`); otherwise the blob passes through unchanged. -/
def decodeTile (gunzip : List Nat → Option (List Nat)) (d : List Nat) : TileOutcome :=
  if hasGzipMagic d then
    match gunzip d with
    | some p => TileOutcome.ok p
    | none => TileOutcome.decodeError
  else TileOutcome.ok d

/-- Python truthiness of the lookup result: `not tile_data` is true for
`None` and for the empty byte string. -/
def isTruthy (o : Option (List Nat)) : Bool :=
  match o with
  | some (_ :: _) => true
  | _ => false

/-- Candidate selection of `server.py` lines 36-50: first
`db.get_tile(z, x, flip_y(z, y))`, and if that is `None` or empty,
`db.get_tile(z, x, y)`. -/
def selectedBlob (tiles : List TileRow) (z : Nat) (x xyz_y : Int) : Option (List Nat) :=
  let t1 := MBTilesDB.get_tile tiles z x (flip_y z xyz_y)
  if isTruthy t1 then t1 else MBTilesDB.get_tile tiles z x xyz_y

/-- The tile-resolution core of the `/tiles/{z}/{x}/{y}` handler
(`server.py` lines 36-65) after path-parameter parsing: dual candidate
lookup, the Python-truthiness emptiness check, then the decode step. -/
def resolveTile (gunzip : List Nat → Option (List Nat)) (tiles : List TileRow)
    (z : Nat) (x xyz_y : Int) : TileOutcome :=
  match selectedBlob tiles z x xyz_y with
  | none => TileOutcome.notFound
  | some d => if d.isEmpty then TileOutcome.notFound else decodeTile gunzip d

/-- HTTP-level outcome of one request to the glue layer.  `ok body` is a
200 response carrying the tile bytes; `error s` is a raised
`HTTPException(status_code = s)`; `validationError` is the framework's
422 rejection of a non-integer `z` or `x` path parameter, issued before
the handler body runs; `pythonError` is an exception escaping the
handler (surfaced by the framework as a generic 500). -/
inductive HttpResponse where
  | ok (body : List Nat)
  | error (status : Nat)
  | validationError
  | pythonError
deriving DecidableEq

/-- The handler body once `z`, `x`, `y` are parsed to integers.  A
negative `z` makes Python's `1 << zoom` in `flip_y` raise `ValueError`
before any lookup; otherwise the resolution core runs and `404`/`500`
are raised as in `server.py` lines 46 and 59. -/
def handleParsed (gunzip : List Nat → Option (List Nat)) (tiles : List TileRow)
    (z x y : Int) : HttpResponse :=
  if z < 0 then HttpResponse.pythonError
  else
    match resolveTile gunzip tiles z.toNat x y with
    | TileOutcome.ok b => HttpResponse.ok b
    | TileOutcome.notFound => HttpResponse.error 404
    | TileOutcome.decodeError => HttpResponse.error 500

/-- Python whitespace stripped by `int(str)` (ASCII fragment). -/
def isPySpace (c : Char) : Bool :=
  c == ' ' || c == '\t' || c == '\n' || c == '\r' || c == '\x0b' || c == '\x0c'

/-- ASCII decimal digit test. -/
def isAsciiDigit (c : Char) : Bool :=
  '0' ≤ c && c ≤ '9'

/-- Tail of the digit grammar of Python `int`: digits with single
underscores allowed only between digits. -/
def digitsTail : List Char → Bool
  | [] => true
  | ['_'] => false
  | '_' :: c :: t => isAsciiDigit c && digitsTail t
  | c :: t => isAsciiDigit c && digitsTail t

/-- Whole digit-run validity: nonempty, starts with a digit, underscores
only between digits. -/
def validDigits : List Char → Bool
  | [] => false
  | c :: t => isAsciiDigit c && digitsTail t

/-- Numeric value of one ASCII digit. -/
def digitVal (c : Char) : Nat :=
  c.toNat - '0'.toNat

/-- Value of a digit run. -/
def digitsToNat (cs : List Char) : Nat :=
  cs.foldl (fun n c => 10 * n + digitVal c) 0

/-- Python `int(s)` on ASCII text: strip whitespace, optional sign,
digits with underscores between digits; `none` models a raised
`ValueError`. -/
def pyIntList? (cs0 : List Char) : Option Int :=
  let cs1 := cs0.dropWhile isPySpace
  let cs := (cs1.reverse.dropWhile isPySpace).reverse
  match cs with
  | '+' :: t =>
    if validDigits t then some ((digitsToNat (t.filter (fun c => !(c == '_'))) : Nat) : Int)
    else none
  | '-' :: t =>
    if validDigits t then some (-((digitsToNat (t.filter (fun c => !(c == '_'))) : Nat) : Int))
    else none
  | t =>
    if validDigits t then some ((digitsToNat (t.filter (fun c => !(c == '_'))) : Nat) : Int)
    else none

/-- Python `int(s)` on a string. -/
def pyInt? (s : String) : Option Int :=
  pyIntList? s.toList

/-- Leading token of the `y` path parameter: `y.split('.')[0]` from
`server.py` line 33. -/
def leadTok (ys : String) : List Char :=
  match pySplit '.' ys.toList with
  | t :: _ => t
  | [] => []

/-- The full `/tiles/{z}/{x}/{y}` request path of `server.py` lines
30-65: the framework coerces `z` and `x` to `int` (422 on failure,
before the handler body), the handler parses the leading token of `y`
with `int` (an uncaught `ValueError` on failure), then runs the
resolution core. -/
def handleTileRequest (gunzip : List Nat → Option (List Nat)) (tiles : List TileRow)
    (zs xs ys : String) : HttpResponse :=
  match pyInt? zs, pyInt? xs with
  | some z, some x =>
    match pyIntList? (leadTok ys) with
    | some y => handleParsed gunzip tiles z x y
    | none => HttpResponse.pythonError
  | _, _ => HttpResponse.validationError

/-- The `GET /metadata` endpoint of `server.py` lines 26-28: the
accessor's mapping returned verbatim as a JSON object with status
200. -/
def metadataEndpoint (metaRows : List (String × String)) : Nat × List (String × String) :=
  (200, MBTilesDB.get_metadata metaRows)

/-- Concrete archive used to exhibit which candidate row the code probes
first: zoom 1, column 0, with one tile stored at row 0 (data "RAW") and
one at row 1 (data "CNV"). -/
def demoTiles : List TileRow :=
  [⟨1, 0, 0, [82, 65, 87]⟩, ⟨1, 0, 1, [67, 78, 86]⟩]

/-- Concrete archive with a single tile stored at key (1, 0, 0). -/
def c3Store : List TileRow :=
  [⟨1, 0, 0, [7]⟩]

/- ------------------------------------------------------------------
Helper lemmas.
------------------------------------------------------------------ -/

/-- The shift in `flip_y` is the power of two of the documented formula. -/
theorem flip_y_eq (z : Nat) (y : Int) : flip_y z y = (2 : Int) ^ z - 1 - y := by
  simp [flip_y, Nat.one_shiftLeft]

/-- The conversion is an involution over unbounded integers. -/
theorem flip_y_flip_y (z : Nat) (y : Int) : flip_y z (flip_y z y) = y := by
  simp [flip_y_eq]

/-- The row value `2^z - 1 - r` that `MBTilesDB.get_tile` binds, applied
to a flipped argument, collapses back to the original row. -/
theorem pow_sub_flip_y (z : Nat) (y : Int) : (2 : Int) ^ z - 1 - flip_y z y = y := by
  rw [flip_y_eq]; ring

/-- Looking a tile up at the flipped row equals the exact-key lookup at
the original stored row. -/
theorem get_tile_flip (tiles : List TileRow) (z : Nat) (x r : Int) :
    MBTilesDB.get_tile tiles z x ((2 : Int) ^ z - 1 - r) = lookupExact tiles z x r := by
  unfold MBTilesDB.get_tile lookupExact
  have h : (2 : Int) ^ z - 1 - ((2 : Int) ^ z - 1 - r) = r := by ring
  rw [h]

/- ------------------------------------------------------------------
C4.
------------------------------------------------------------------ -/

/-- C4: the row conversion computes `flip(zoom, row) = (2^zoom - 1) - row`
and, for `0 ≤ row < 2^zoom`, applying it twice returns the original
row. -/
theorem c4_flip_involution (zoom : Nat) (row : Int)
    (h0 : 0 ≤ row) (h1 : row < (2 : Int) ^ zoom) :
    flip_y zoom row = (2 : Int) ^ zoom - 1 - row ∧
    flip_y zoom (flip_y zoom row) = row :=
  ⟨flip_y_eq zoom row, flip_y_flip_y zoom row⟩

/-- Witness for C4 at zoom 1, row 0. -/
theorem c4_flip_involution_witness :
    flip_y 1 0 = (2 : Int) ^ 1 - 1 - 0 ∧ flip_y 1 (flip_y 1 0) = 0 :=
  c4_flip_involution 1 0 (by decide) (by decide)

/- ------------------------------------------------------------------
C3.
------------------------------------------------------------------ -/

/-- C3 counterexample: `c3Store` holds a record whose stored key is
exactly (1, 0, 0) — the exact-key lookup at that key returns its data —
yet `MBTilesDB.get_tile 1 0 0` returns `none`, because the accessor
transforms its row argument before matching. -/
theorem c3_counterexample :
    lookupExact c3Store 1 0 0 = some [7] ∧ MBTilesDB.get_tile c3Store 1 0 0 = none := by
  decide

/-- C3 amended: `MBTilesDB.get_tile zoom column row` does not use its row
argument untransformed; it returns the data of the record whose stored
key equals (zoom, column, (2^zoom - 1) - row), so the exact stored row r
is retrieved by passing the argument (2^zoom - 1) - r.  Absence is still
returned as `none`, not an error. -/
theorem c3_get_tile_transforms (tiles : List TileRow) (z : Nat) (x y r : Int) :
    MBTilesDB.get_tile tiles z x y = lookupExact tiles z x ((2 : Int) ^ z - 1 - y) ∧
    MBTilesDB.get_tile tiles z x ((2 : Int) ^ z - 1 - r) = lookupExact tiles z x r :=
  ⟨rfl, get_tile_flip tiles z x r⟩

/- ------------------------------------------------------------------
C1.
------------------------------------------------------------------ -/

/-- C1: at request (z, x, y) = (1, 0, 0) against `demoTiles`, the
converted candidate row is `flip(1, 0) = 1`, whose stored tile is "CNV";
the claimed converted-first policy would serve it.  The code instead
serves "RAW", the tile stored at the raw request row 0: the handler's
`flip_y` (server.py line 36) and the accessor's internal `2**z - 1 - y`
(core.py line 34) cancel, so the first SQL probe binds the raw row. -/
theorem c1_raw_row_served_first (gunzip : List Nat → Option (List Nat)) :
    lookupExact demoTiles 1 0 (flip_y 1 0) = some [67, 78, 86] ∧
    resolveTile gunzip demoTiles 1 0 0 = TileOutcome.ok [82, 65, 87] :=
  ⟨by decide, rfl⟩

/- ------------------------------------------------------------------
C5.
------------------------------------------------------------------ -/

/-- C5: the decode step depends only on the blob's own bytes.  Whatever
value `b` the archive-wide metadata heuristic `is_compressed` computes,
a blob whose first two bytes are 0x1F 0x8B is gzip-decompressed in full
to the plaintext `gunzip` yields, and a blob without the magic prefix is
returned byte-identical. -/
theorem c5_decode_is_sniff_only (gunzip : List Nat → Option (List Nat))
    (md : List (String × String)) (b : Bool)
    (hb : MBTilesDB.is_compressed md = b) (blob p : List Nat) :
    (hasGzipMagic blob = true → gunzip blob = some p →
      decodeTile gunzip blob = TileOutcome.ok p) ∧
    (hasGzipMagic blob = false → decodeTile gunzip blob = TileOutcome.ok blob) := by
  constructor
  · intro hmag hz
    simp [decodeTile, hmag, hz]
  · intro hmag
    simp [decodeTile, hmag]

/-- Witness for C5: with a heuristic that says "compressed" (empty
metadata), a magic-prefixed blob decompresses and a plain blob passes
through unchanged. -/
theorem c5_decode_is_sniff_only_witness :
    decodeTile (fun d => if d == [31, 139, 1] then some [9] else none) [31, 139, 1] =
      TileOutcome.ok [9] ∧
    decodeTile (fun d => if d == [31, 139, 1] then some [9] else none) [3, 4] =
      TileOutcome.ok [3, 4] :=
  ⟨(c5_decode_is_sniff_only (fun d => if d == [31, 139, 1] then some [9] else none)
      [] true (by decide) [31, 139, 1] [9]).1 (by decide) (by decide),
   (c5_decode_is_sniff_only (fun d => if d == [31, 139, 1] then some [9] else none)
      [] true (by decide) [3, 4] [9]).2 (by decide)⟩

/- ------------------------------------------------------------------
C6.
------------------------------------------------------------------ -/

/-- C6: when the selected blob carries the gzip magic prefix but fails to
decompress, the resolver ends in `decodeError` and the request is
answered with HTTP 500 — not the 404 of an absent tile, and not a 200
with a substitute payload. -/
theorem c6_decode_failure_500 (gunzip : List Nat → Option (List Nat))
    (tiles : List TileRow) (z : Nat) (x y : Int) (d : List Nat)
    (hsel : selectedBlob tiles z x y = some d)
    (hmag : hasGzipMagic d = true) (hfail : gunzip d = none) :
    resolveTile gunzip tiles z x y = TileOutcome.decodeError ∧
    handleParsed gunzip tiles (z : Int) x y = HttpResponse.error 500 := by
  have hne : d.isEmpty = false := by
    cases d with
    | nil => simp [hasGzipMagic] at hmag
    | cons a t => rfl
  have hres : resolveTile gunzip tiles z x y = TileOutcome.decodeError := by
    unfold resolveTile
    rw [hsel]
    simp [hne, decodeTile, hmag, hfail]
  refine ⟨hres, ?_⟩
  unfold handleParsed
  rw [if_neg (by omega)]
  simp [hres]

/-- Witness for C6: a stored blob that is just the gzip magic pair, with
a decompressor that rejects it. -/
theorem c6_decode_failure_500_witness :
    resolveTile (fun _ => none) [⟨0, 0, 0, [31, 139]⟩] 0 0 0 = TileOutcome.decodeError ∧
    handleParsed (fun _ => none) [⟨0, 0, 0, [31, 139]⟩] 0 0 0 = HttpResponse.error 500 :=
  c6_decode_failure_500 (fun _ => none) [⟨0, 0, 0, [31, 139]⟩] 0 0 0 [31, 139]
    (by decide) (by decide) rfl

/- ------------------------------------------------------------------
C7.
------------------------------------------------------------------ -/

/-- C7: when no archive record matches the raw candidate row or the
converted candidate row for (z, x, y), the request is answered with HTTP
404 and no tile body — not a crash and not an empty 200. -/
theorem c7_not_found_404 (gunzip : List Nat → Option (List Nat))
    (tiles : List TileRow) (z : Nat) (x y : Int)
    (hnone : ∀ t ∈ tiles, keyMatches t z x y = false ∧
      keyMatches t z x (flip_y z y) = false) :
    handleParsed gunzip tiles (z : Int) x y = HttpResponse.error 404 := by
  have h1 : MBTilesDB.get_tile tiles z x (flip_y z y) = none := by
    unfold MBTilesDB.get_tile
    rw [pow_sub_flip_y]
    rw [List.find?_eq_none.2 (fun t ht => by simp [(hnone t ht).1])]
    rfl
  have h2 : MBTilesDB.get_tile tiles z x y = none := by
    unfold MBTilesDB.get_tile
    rw [show (2 : Int) ^ z - 1 - y = flip_y z y from (flip_y_eq z y).symm]
    rw [List.find?_eq_none.2 (fun t ht => by simp [(hnone t ht).2])]
    rfl
  have hsel : selectedBlob tiles z x y = none := by
    unfold selectedBlob
    rw [h1, h2]
    rfl
  unfold handleParsed
  rw [if_neg (by omega)]
  simp [resolveTile, hsel]

/-- Witness for C7: a request at (1, 0, 0) against an archive whose only
record sits at an unrelated row. -/
theorem c7_not_found_404_witness :
    handleParsed (fun _ => none) [⟨1, 0, 5, [1]⟩] 1 0 0 = HttpResponse.error 404 :=
  c7_not_found_404 (fun _ => none) [⟨1, 0, 5, [1]⟩] 1 0 0 (by decide)

/- ------------------------------------------------------------------
C10.
------------------------------------------------------------------ -/

/-- C10: a matching record whose data is the empty byte string is
treated as absent — the first candidate being empty makes the handler
fall through to the fallback candidate, and when the fallback also
yields nothing or an empty blob the request is answered 404 even though
a matching row exists in the tiles table. -/
theorem c10_empty_blob_absent (gunzip : List Nat → Option (List Nat))
    (tiles : List TileRow) (z : Nat) (x y : Int)
    (h1 : MBTilesDB.get_tile tiles z x (flip_y z y) = some []) :
    selectedBlob tiles z x y = MBTilesDB.get_tile tiles z x y ∧
    ((MBTilesDB.get_tile tiles z x y = none ∨
        MBTilesDB.get_tile tiles z x y = some []) →
      handleParsed gunzip tiles (z : Int) x y = HttpResponse.error 404) := by
  have hsel : selectedBlob tiles z x y = MBTilesDB.get_tile tiles z x y := by
    unfold selectedBlob
    rw [h1]
    rfl
  refine ⟨hsel, fun h2 => ?_⟩
  unfold handleParsed
  rw [if_neg (by omega)]
  rcases h2 with h2 | h2 <;> simp [resolveTile, hsel, h2]

/-- Witness for C10: a single record at the probed key holding empty
data; both candidates resolve to it and the request still 404s. -/
theorem c10_empty_blob_absent_witness :
    handleParsed (fun _ => none) [⟨0, 0, 0, []⟩] 0 0 0 = HttpResponse.error 404 :=
  (c10_empty_blob_absent (fun _ => none) [⟨0, 0, 0, []⟩] 0 0 0 (by decide)).2
    (Or.inr (by decide))

/- ------------------------------------------------------------------
C2.
------------------------------------------------------------------ -/

/-- C2: an archive storing exactly one tile with data `D` at native row
`R` for zoom `z`, column `x`, with `0 ≤ R < 2^z`, answers the request
(z, x, flip(z, R)) with HTTP 200 carrying `D`'s canonical decoded bytes
`p`, provided `D` is non-empty and its decode step succeeds (no gzip
magic, or a successful decompression). -/
theorem c2_dual_lookup_correct (gunzip : List Nat → Option (List Nat))
    (z : Nat) (x R : Int) (D p : List Nat)
    (hR0 : 0 ≤ R) (hR1 : R < (2 : Int) ^ z) (hD : D ≠ [])
    (hdec : decodeTile gunzip D = TileOutcome.ok p) :
    handleParsed gunzip [⟨z, x, R, D⟩] (z : Int) x (flip_y z R) = HttpResponse.ok p := by
  have hsel : selectedBlob [⟨z, x, R, D⟩] z x (flip_y z R) = some D := by
    unfold selectedBlob
    rw [flip_y_flip_y]
    by_cases h : R = (2 : Int) ^ z - 1 - R
    · have ht1 : MBTilesDB.get_tile [⟨z, x, R, D⟩] z x R = some D := by
        simp [MBTilesDB.get_tile, keyMatches, List.find?, ← h]
      rw [ht1]
      cases D with
      | nil => exact absurd rfl hD
      | cons a t => simp [isTruthy]
    · have hb : (R == (2 : Int) ^ z - 1 - R) = false := beq_eq_false_iff_ne.mpr h
      have ht1 : MBTilesDB.get_tile [⟨z, x, R, D⟩] z x R = none := by
        simp [MBTilesDB.get_tile, keyMatches, List.find?, hb]
      have ht2 : MBTilesDB.get_tile [⟨z, x, R, D⟩] z x (flip_y z R) = some D := by
        unfold MBTilesDB.get_tile
        rw [pow_sub_flip_y]
        simp [keyMatches, List.find?]
      rw [ht1, ht2]
      rfl
  have hne : D.isEmpty = false := by
    cases D with
    | nil => exact absurd rfl hD
    | cons a t => rfl
  unfold handleParsed
  rw [if_neg (by omega)]
  simp [resolveTile, hsel, hne, hdec]

/-- Witness for C2: one uncompressed tile `[7]` stored at native row 0 of
zoom 1 is served for the public request row `flip(1, 0) = 1`. -/
theorem c2_dual_lookup_correct_witness :
    handleParsed (fun _ => none) [⟨1, 0, 0, [7]⟩] 1 0 (flip_y 1 0) = HttpResponse.ok [7] :=
  c2_dual_lookup_correct (fun _ => none) 1 0 0 [7] [7]
    (by decide) (by decide) (by decide) rfl

/- ------------------------------------------------------------------
C8.
------------------------------------------------------------------ -/

/-- Binding one key in the dict model changes exactly that key's
lookup. -/
theorem dictFind?_dictInsert (d : List (String × String)) (a b k : String) :
    dictFind? (dictInsert d a b) k = if k = a then some b else dictFind? d k := by
  induction d with
  | nil =>
    by_cases h : k = a
    · subst h; simp [dictInsert, dictFind?, List.find?]
    · have hb : (a == k) = false := beq_eq_false_iff_ne.mpr (fun e => h e.symm)
      simp [dictInsert, dictFind?, List.find?, hb, h]
  | cons kv t ih =>
    by_cases h1 : kv.1 = a
    · have hb1 : (kv.1 == a) = true := beq_iff_eq.mpr h1
      by_cases h2 : k = a
      · subst h2
        simp [dictInsert, hb1, dictFind?, List.find?]
      · have hb2 : (a == k) = false := beq_eq_false_iff_ne.mpr (fun e => h2 e.symm)
        have hbkv : (kv.1 == k) = false := by rw [h1]; exact hb2
        simp [dictInsert, hb1, dictFind?, List.find?, hb2, hbkv, h2]
    · have hb1 : (kv.1 == a) = false := beq_eq_false_iff_ne.mpr h1
      by_cases h2 : kv.1 = k
      · have h3 : ¬k = a := fun e => h1 (h2.trans e)
        have hbk : (kv.1 == k) = true := beq_iff_eq.mpr h2
        simp [dictInsert, hb1, dictFind?, List.find?, hbk, h3]
      · have hbk : (kv.1 == k) = false := beq_eq_false_iff_ne.mpr h2
        have ih' := ih
        simp only [dictFind?] at ih'
        simp [dictInsert, hb1, dictFind?, List.find?, hbk, ih']

/-- Folding rows none of which carry the key `k` leaves `k`'s lookup
unchanged. -/
theorem dictFind?_foldl_of_ne (rows : List (String × String)) :
    ∀ d k, (∀ kv ∈ rows, kv.1 ≠ k) →
      dictFind? (rows.foldl (fun acc nv => dictInsert acc nv.1 nv.2) d) k = dictFind? d k := by
  induction rows with
  | nil => intro d k _; rfl
  | cons nv t ih =>
    intro d k hk
    simp only [List.foldl_cons]
    rw [ih _ k (fun kv hkv => hk kv (List.mem_cons_of_mem _ hkv))]
    rw [dictFind?_dictInsert]
    have h : ¬k = nv.1 := fun e => hk nv (List.mem_cons_self _ _) e.symm
    simp [h]

/-- With pairwise-distinct names, every (name, value) row of the input
is found in the dict built by the comprehension fold. -/
theorem dictFind?_foldl_mem (rows : List (String × String)) :
    ∀ d, (rows.map Prod.fst).Nodup →
      ∀ kv ∈ rows,
        dictFind? (rows.foldl (fun acc nv => dictInsert acc nv.1 nv.2) d) kv.1 = some kv.2 := by
  induction rows with
  | nil => intro d _ kv hkv; simp at hkv
  | cons nv t ih =>
    intro d hnodup kv hkv
    simp only [List.map_cons, List.nodup_cons] at hnodup
    obtain ⟨hnotmem, hnd⟩ := hnodup
    simp only [List.foldl_cons]
    rcases List.mem_cons.mp hkv with rfl | hmem
    · have hne : ∀ kv' ∈ t, kv'.1 ≠ kv.1 := by
        intro kv' h' e
        exact hnotmem (e ▸ List.mem_map_of_mem Prod.fst h')
      rw [dictFind?_foldl_of_ne t _ kv.1 hne, dictFind?_dictInsert]
      simp
    · exact ih _ hnd kv hmem

/-- C8: `get_metadata` builds its mapping from all (name, value) rows of
the metadata table — every row's name looks up to its value when names
are unique, and the empty table yields the empty mapping — and the
`GET /metadata` endpoint returns exactly that mapping with status
200. -/
theorem c8_metadata_mapping (rows : List (String × String))
    (hnodup : (rows.map Prod.fst).Nodup) :
    metadataEndpoint rows = (200, MBTilesDB.get_metadata rows) ∧
    MBTilesDB.get_metadata [] = [] ∧
    ∀ kv ∈ rows, dictFind? (MBTilesDB.get_metadata rows) kv.1 = some kv.2 :=
  ⟨rfl, rfl, dictFind?_foldl_mem rows [] hnodup⟩

/-- Witness for C8 on the spec's example table
`{"name": "t", "format": "pbf"}`. -/
theorem c8_metadata_mapping_witness :
    dictFind? (MBTilesDB.get_metadata [("name", "t"), ("format", "pbf")]) "name" = some "t" ∧
    dictFind? (MBTilesDB.get_metadata [("name", "t"), ("format", "pbf")]) "format" =
      some "pbf" :=
  ⟨(c8_metadata_mapping [("name", "t"), ("format", "pbf")] (by decide)).2.2
      ("name", "t") (by simp),
   (c8_metadata_mapping [("name", "t"), ("format", "pbf")] (by decide)).2.2
      ("format", "pbf") (by simp)⟩

/- ------------------------------------------------------------------
C9.
------------------------------------------------------------------ -/

/-- C9 counterexample: the request z = "1", x = "2", y = "abc.pbf" has a
non-integer leading `y` token, yet the glue layer does not reject it
with a 400-class status: the handler body's `int(y.split('.')[0])`
raises an uncaught `ValueError` (surfaced by the framework as a 500),
which is not the framework's 422 validation rejection. -/
theorem c9_counterexample :
    handleTileRequest (fun _ => none) [] "1" "2" "abc.pbf" = HttpResponse.pythonError ∧
    HttpResponse.pythonError ≠ HttpResponse.validationError := by
  exact ⟨by decide, by decide⟩

/-- C9 amended: a non-integer `z` or `x` is rejected by the framework
with 422 before the handler body runs, independently of the archive; a
non-integer leading `y` token (with `z` and `x` integers) instead
raises an uncaught `ValueError` inside the handler — surfaced as a
500-class server error, not a 400-class rejection — though still before
any coordinate conversion or archive lookup, as the outcome's
independence from the archive contents shows. -/
theorem c9_malformed_rejected_before_core (gunzip : List Nat → Option (List Nat))
    (tiles tiles2 : List TileRow) (zs xs ys : String) :
    ((pyInt? zs = none ∨ pyInt? xs = none) →
      handleTileRequest gunzip tiles zs xs ys = HttpResponse.validationError ∧
      handleTileRequest gunzip tiles zs xs ys = handleTileRequest gunzip tiles2 zs xs ys) ∧
    (∀ z x : Int, pyInt? zs = some z → pyInt? xs = some x →
      pyIntList? (leadTok ys) = none →
      handleTileRequest gunzip tiles zs xs ys = HttpResponse.pythonError ∧
      handleTileRequest gunzip tiles zs xs ys = handleTileRequest gunzip tiles2 zs xs ys) := by
  constructor
  · intro h
    rcases h with h | h
    · constructor <;> simp [handleTileRequest, h]
    · cases hz : pyInt? zs <;> constructor <;> simp [handleTileRequest, hz, h]
  · intro z x hz hx hy
    constructor <;> simp [handleTileRequest, hz, hx, hy]

/-- Witness for C9 at concrete requests: a non-integer `z` is rejected
by validation, and a non-integer `y` token dies as an uncaught
exception. -/
theorem c9_malformed_rejected_before_core_witness :
    handleTileRequest (fun _ => none) [] "a" "0" "0" = HttpResponse.validationError ∧
    handleTileRequest (fun _ => none) [] "0" "0" "b.pbf" = HttpResponse.pythonError :=
  ⟨((c9_malformed_rejected_before_core (fun _ => none) [] [] "a" "0" "0").1
      (Or.inl (by decide))).1,
   ((c9_malformed_rejected_before_core (fun _ => none) [] [] "0" "0" "b.pbf").2
      0 0 (by decide) (by decide) (by decide)).1⟩
